import Mathlib

/-!
# Camply — verification of the session/authentication lifecycle

Shallow embedding of the Camply campus-marketplace authentication slice:
the attempt throttle (`lib/rateLimiter.ts`), the credential validators and
`loginWithEmail`/`logout` (`lib/authService.ts`), the auth-context handlers
(`context/AuthContext.tsx`), the onboarding service (`lib/onboardingService.ts`)
and the listings POST route (`app/api/listings/route.ts`).

Times are modelled as natural numbers of milliseconds.  The in-memory
per-identifier store is modelled as a total function from identifiers to
optional entries (deletion maps to `none`).  External services (the identity
provider, the relational store) appear as explicit parameters carrying their
outcome.
-/

namespace Camply

/-! ## Attempt throttle (`lib/rateLimiter.ts`) -/

/-- Mirror of `RateLimitConfig` from `types/auth.ts`. -/
structure RateLimitConfig where
  maxAttempts : Nat
  windowMs : Nat
  lockoutMs : Nat
  deriving Repr, DecidableEq

/-- Defaults (`DEFAULT_CONFIG`): 5 attempts in a 15-minute window, 30-minute lockout. -/
def DEFAULT_CONFIG : RateLimitConfig :=
  { maxAttempts := 5, windowMs := 15 * 60 * 1000, lockoutMs := 30 * 60 * 1000 }

/-- One value of the `RateLimitStore` map: `{attempts, firstAttemptTime, lockedUntil?}`. -/
structure RateLimitEntry where
  attempts : Nat
  firstAttemptTime : Nat
  lockedUntil : Option Nat
  deriving Repr, DecidableEq

/-- The `RateLimitStore` object: identifier-keyed map; `none` = key absent. -/
def RateLimitStore : Type := String → Option RateLimitEntry

/-- Store with `store[id] = e` (or the key deleted, when `e = none`). -/
def setEntry (s : RateLimitStore) (id : String) (e : Option RateLimitEntry) :
    RateLimitStore :=
  fun k => if k = id then e else s k

/-- The empty store (`{}`). -/
def emptyStore : RateLimitStore := fun _ => none

/-- Model of `RateLimiter.isLocked`, together with its side effect on the store: it
returns `true` while `lockedUntil` lies strictly in the future, and deletes the
entry (returning `false`) once the lockout has expired. -/
def isLocked (s : RateLimitStore) (id : String) (now : Nat) :
    Bool × RateLimitStore :=
  match s id with
  | none => (false, s)
  | some e =>
    match e.lockedUntil with
    | none => (false, s)
    | some lu =>
      if now < lu then (true, s)
      else (false, setEntry s id none)

/-- Model of `RateLimiter.getLockoutTimeRemaining`: `lockedUntil - now`, floored at 0
(the JS `remaining > 0 ? remaining : 0` is natural-number truncated subtraction). -/
def getLockoutTimeRemaining (s : RateLimitStore) (id : String) (now : Nat) : Nat :=
  match s id with
  | none => 0
  | some e =>
    match e.lockedUntil with
    | none => 0
    | some lu => lu - now

/-- Result of `RateLimiter.recordAttempt`: `{allowed, remaining}`. -/
structure AttemptResult where
  allowed : Bool
  remaining : Nat
  deriving Repr, DecidableEq

/-- Model of `RateLimiter.recordAttempt`.  The local `entry` variable is read before
`isLocked` runs, so the branches below test the *pre-call* entry; writes caused
by `entry.attempts++` / `entry.lockedUntil = …` are visible in the store only
while the object is still referenced by the store (it is not when `isLocked`
just deleted an expired lockout), which the `(s1 id).isSome` guard models. -/
def recordAttempt (cfg : RateLimitConfig) (s : RateLimitStore) (id : String)
    (now : Nat) : RateLimitStore × AttemptResult :=
  let entry := s id
  let locked := (isLocked s id now).1
  let s1 := (isLocked s id now).2
  if locked then
    (s1, ⟨false, getLockoutTimeRemaining s1 id now⟩)
  else
    match entry with
    | none =>
      (setEntry s1 id (some ⟨1, now, none⟩), ⟨true, 0⟩)
    | some e =>
      if cfg.windowMs < now - e.firstAttemptTime then
        (setEntry s1 id (some ⟨1, now, none⟩), ⟨true, 0⟩)
      else if cfg.maxAttempts < e.attempts + 1 then
        ((if (s1 id).isSome then
            setEntry s1 id (some ⟨e.attempts + 1, e.firstAttemptTime, some (now + cfg.lockoutMs)⟩)
          else s1),
         ⟨false, cfg.lockoutMs⟩)
      else
        ((if (s1 id).isSome then
            setEntry s1 id (some ⟨e.attempts + 1, e.firstAttemptTime, e.lockedUntil⟩)
          else s1),
         ⟨true, 0⟩)

/-- Model of `RateLimiter.reset`. -/
def reset (s : RateLimitStore) (id : String) : RateLimitStore :=
  setEntry s id none

/-- Run `recordAttempt` once per timestamp in the list, threading the store,
collecting the results. -/
def runAttempts (cfg : RateLimitConfig) (s : RateLimitStore) (id : String) :
    List Nat → RateLimitStore × List AttemptResult
  | [] => (s, [])
  | t :: ts =>
    let step := recordAttempt cfg s id t
    let rest := runAttempts cfg step.1 id ts
    (rest.1, step.2 :: rest.2)

/-! ## Credential validator (`lib/authService.ts`) -/

/-- Whitespace as matched by the JS `\s` class (the code points relevant to
this code base: ASCII spacing characters and NBSP). -/
def isJsWhitespace (c : Char) : Bool :=
  c = ' ' || c = '\t' || c = '\n' || c = '\r' ||
  c = '\x0b' || c = '\x0c' || c = ' '

/-- Model of `validateEmail`: `^[^\s@]+@[^\s@]+\.[^\s@]+$`.  A string matches exactly
when it has no whitespace, exactly one `@` that is not the first character, and
some `.` strictly between the `@` (with at least one character in between) and
the last character. -/
def validateEmail (email : String) : Bool :=
  let cs := email.data
  let n := cs.length
  (cs.all fun c => !(isJsWhitespace c)) &&
  (cs.count '@' == 1) &&
  (let i := cs.indexOf '@'
   decide (1 ≤ i) &&
   ((List.range n).any fun j =>
     (cs.getD j '@') == '.' && decide (i + 2 ≤ j) && decide (j + 1 < n)))

/-- Test `/[A-Z]/.test p`. -/
def hasUppercase (p : String) : Bool :=
  p.data.any fun c => 'A' ≤ c && c ≤ 'Z'

/-- Test `/[a-z]/.test p`. -/
def hasLowercase (p : String) : Bool :=
  p.data.any fun c => 'a' ≤ c && c ≤ 'z'

/-- Test `/[0-9]/.test p`. -/
def hasDigit (p : String) : Bool :=
  p.data.any fun c => '0' ≤ c && c ≤ '9'

/-- Result shape of `validatePassword`: `{valid, message?}`. -/
structure PasswordValidation where
  valid : Bool
  message : Option String
  deriving Repr, DecidableEq

/-- Model of `validatePassword`: length ≥ 8, then an uppercase letter, then a lowercase
letter, then a digit, in that order; first failing rule's message is returned. -/
def validatePassword (password : String) : PasswordValidation :=
  if password.length < 8 then
    ⟨false, some "Password must be at least 8 characters"⟩
  else if !hasUppercase password then
    ⟨false, some "Password must contain at least one uppercase letter"⟩
  else if !hasLowercase password then
    ⟨false, some "Password must contain at least one lowercase letter"⟩
  else if !hasDigit password then
    ⟨false, some "Password must contain at least one number"⟩
  else
    ⟨true, none⟩

/-! ## Auth service (`lib/authService.ts`) -/

/-- Mirror of `AuthErrorCode` from `types/auth.ts`. -/
inductive AuthErrorCode where
  | INVALID_CREDENTIALS
  | USER_NOT_FOUND
  | USER_ALREADY_EXISTS
  | WEAK_PASSWORD
  | INVALID_EMAIL
  | RATE_LIMIT_EXCEEDED
  | SESSION_EXPIRED
  | NETWORK_ERROR
  | UNKNOWN_ERROR
  deriving Repr, DecidableEq

/-- Mirror of `AuthError` (the `details` field is dropped: no claim reads it). -/
structure AuthError where
  code : AuthErrorCode
  message : String
  deriving Repr, DecidableEq

/-- The application `User` shape, restricted to the fields the auth/session
claims read (`id`, `email`); the remaining profile fields live on
`ProfileRow` below. -/
structure AppUser where
  id : String
  email : String
  deriving Repr, DecidableEq

/-- Successful result of `loginWithEmail`: `{user, accessToken, refreshToken}`. -/
structure LoginSuccess where
  user : AppUser
  accessToken : String
  refreshToken : String
  deriving Repr, DecidableEq

/-- Model of `loginWithEmail`.  The identity provider's credential exchange
(`supabase.auth.signInWithPassword`, pre-mapped through `mapSupabaseError`) is
the explicit `provider` parameter; the returned `Bool` records whether that
exchange was reached.  The rate-limiter store is threaded explicitly (the
source mutates the module-level singleton). -/
def loginWithEmail (cfg : RateLimitConfig) (limiter : RateLimitStore) (now : Nat)
    (email password : String) (provider : Except AuthError LoginSuccess) :
    RateLimitStore × Bool × Except AuthError LoginSuccess :=
  if email = "" || password = "" then
    (limiter, false,
     .error ⟨.INVALID_CREDENTIALS, "Email and password are required"⟩)
  else if !validateEmail email then
    (limiter, false,
     .error ⟨.INVALID_EMAIL, "Please enter a valid email address"⟩)
  else
    let step := recordAttempt cfg limiter email now
    if !step.2.allowed then
      let remainingSeconds := (step.2.remaining + 999) / 1000
      (step.1, false,
       .error ⟨.RATE_LIMIT_EXCEEDED,
         s!"Too many login attempts. Try again in {remainingSeconds} seconds."⟩)
    else
      match provider with
      | .ok res => (reset step.1 email, true, .ok res)
      | .error e => (step.1, true, .error e)

/-! ## Auth context handlers (`context/AuthContext.tsx`, the variant wired to
`lib/onboardingService.ts`) -/

/-- The application `Session` shape. -/
structure AppSession where
  user : AppUser
  accessToken : String
  refreshToken : String
  expiresAt : Option Nat
  deriving Repr, DecidableEq

/-- The `AuthProvider` component state: `user`, `session`, `loading`, `error`. -/
structure AuthState where
  user : Option AppUser
  session : Option AppSession
  loading : Bool
  error : Option AuthError
  deriving Repr, DecidableEq

/-- The initial provider state (`useState(null)` ×2, `useState(true)`,
`useState(null)`). -/
def initialAuthState : AuthState :=
  { user := none, session := none, loading := true, error := none }

/-- The `login` handler: `setLoading(true); setError(null); try { result =
await loginWithEmail(…); setUser; setSession } catch { setError } finally
{ setLoading(false) }`.  The awaited service outcome is the `svc` parameter. -/
def login (st : AuthState) (now : Nat) (svc : Except AuthError LoginSuccess) :
    AuthState :=
  let st1 : AuthState := { st with loading := true, error := none }
  match svc with
  | .ok r =>
    { st1 with
      user := some r.user
      session := some ⟨r.user, r.accessToken, r.refreshToken,
        some (now + 60 * 60 * 1000)⟩
      loading := false }
  | .error e => { st1 with error := some e, loading := false }

/-- The `signUp` handler: awaits `signUpWithEmail` and never touches
`user`/`session`; on error sets `error`. -/
def signUp (st : AuthState) (svc : Except AuthError Unit) : AuthState :=
  let st1 : AuthState := { st with loading := true, error := none }
  match svc with
  | .ok _ => { st1 with loading := false }
  | .error e => { st1 with error := some e, loading := false }

/-- The `logoutHandler`: `try { await logout(); setUser(null);
setSession(null) } catch (err) { setError(err); throw err }` — the two
`set…(null)` calls run only when the provider sign-out (`logout()`, which
rethrows its provider error) succeeded. -/
def logoutHandler (st : AuthState) (svc : Except AuthError Unit) : AuthState :=
  let st1 : AuthState := { st with loading := true, error := none }
  match svc with
  | .ok _ => { st1 with user := none, session := none, loading := false }
  | .error e => { st1 with error := some e, loading := false }

/-- The `resetPassword` handler: awaits `requestPasswordReset`; never touches
`user`/`session`; on error sets `error`. -/
def resetPassword (st : AuthState) (svc : Except AuthError Unit) : AuthState :=
  let st1 : AuthState := { st with loading := true, error := none }
  match svc with
  | .ok _ => { st1 with loading := false }
  | .error e => { st1 with error := some e, loading := false }

/-! ## Onboarding service (`lib/onboardingService.ts`) -/

/-- Mirror of `OnboardingData`; `avatarType` and `gender` are carried but never
persisted by `completeOnboarding`. -/
structure OnboardingData where
  displayName : String
  bio : String
  school : String
  program : String
  profilePicture : String
  avatarType : String
  gender : Option String
  deriving Repr, DecidableEq

/-- One row of the persisted `users` table, as selected by
`getUserProfile`. -/
structure ProfileRow where
  id : String
  display_name : String
  bio : String
  school : String
  program : String
  avatar_url : String
  onboarding_completed : Bool
  created_at : String
  updated_at : String
  deriving Repr, DecidableEq

/-- The `users` table, keyed by user id (`.eq("id", userId).single()`). -/
def UsersTable : Type := String → Option ProfileRow

/-- The empty table. -/
def emptyUsers : UsersTable := fun _ => none

/-- Table with the row for `userId` replaced. -/
def setRow (db : UsersTable) (userId : String) (row : Option ProfileRow) :
    UsersTable :=
  fun k => if k = userId then row else db k

/-- Model of `getUserProfile`: single-row fetch by id; absent row (`PGRST116`) is
`null`. -/
def getUserProfile (db : UsersTable) (userId : String) : Option ProfileRow :=
  db userId

/-- Model of `hasCompletedOnboarding`: reads the persisted `onboarding_completed`
flag; a missing row (the `.single()` error path) yields `false`
(`data?.onboarding_completed || false`). -/
def hasCompletedOnboarding (db : UsersTable) (userId : String) : Bool :=
  match db userId with
  | none => false
  | some row => row.onboarding_completed

/-- Model of `completeOnboarding` (the store-success path; persistence errors are the
provider's and surface as `{success: false}` without a write): builds
`profileData` with `onboarding_completed := true` and upserts it — `update`
keeps the existing `created_at`, `insert` stamps it with `now`. -/
def completeOnboarding (db : UsersTable) (userId : String) (d : OnboardingData)
    (now : String) : UsersTable :=
  match getUserProfile db userId with
  | some existing =>
    setRow db userId
      (some { id := userId, display_name := d.displayName, bio := d.bio,
              school := d.school, program := d.program,
              avatar_url := d.profilePicture, onboarding_completed := true,
              created_at := existing.created_at, updated_at := now })
  | none =>
    setRow db userId
      (some { id := userId, display_name := d.displayName, bio := d.bio,
              school := d.school, program := d.program,
              avatar_url := d.profilePicture, onboarding_completed := true,
              created_at := now, updated_at := now })

/-- The operations of this repository that write the `users` table's
`onboarding_completed` flag: only `completeOnboarding` does. -/
inductive OnbOp where
  | complete (userId : String) (d : OnboardingData) (now : String)
  deriving Repr

/-- Apply one operation to the table. -/
def applyOp (db : UsersTable) : OnbOp → UsersTable
  | .complete userId d now => completeOnboarding db userId d now

/-- Apply a history of operations, oldest first. -/
def applyOps (db : UsersTable) : List OnbOp → UsersTable
  | [] => db
  | op :: ops => applyOps (applyOp db op) ops

/-! ## Listings route (`app/api/listings/route.ts`, `POST`) -/

/-- One row of the `items` table, with the columns the `POST` handler
inserts.  The form's `price` is kept as its raw text (its `parseFloat` is a
floating-point detail no claim reads). -/
structure ItemRow where
  id : Nat
  title : String
  description : String
  price : String
  condition : String
  status : String
  user_id : String
  category_id : Nat
  school : String
  deriving Repr, DecidableEq

/-- The two tables the insert phase of the handler touches: `items` and
`item_images` (rows `(item_id, image_url)`). -/
structure ListingsDb where
  items : List ItemRow
  item_images : List (Nat × String)
  deriving Repr, DecidableEq

/-- The insert phase of `POST /api/listings` (source lines 173–210): insert
the item row; on success insert one `item_images` row per uploaded URL; if
that insert errors, delete the rows with the item's id from `items`
(compensating rollback) and throw, which the outer catch turns into a 500
response.  The store's two insert outcomes are the explicit error flags; the
returned number is the HTTP status. -/
def postListingsInsertPhase (db : ListingsDb) (item : ItemRow)
    (imageUrls : List String) (itemInsertError imageInsertError : Bool) :
    ListingsDb × Nat :=
  if itemInsertError then
    (db, 500)
  else
    let db1 : ListingsDb := { db with items := db.items ++ [item] }
    if imageInsertError then
      ({ db1 with items := db1.items.filter fun r => r.id ≠ item.id }, 500)
    else
      ({ db1 with
         item_images := db1.item_images ++ imageUrls.map fun u => (item.id, u) },
       200)

/-! ## Throttle lemmas -/

theorem setEntry_same (s : RateLimitStore) (id : String)
    (e : Option RateLimitEntry) : setEntry s id e id = e := by
  simp [setEntry]

/-- Behaviour of `recordAttempt` on an identifier with no record: a fresh
entry with count 1 is stored and the attempt is allowed. -/
theorem recordAttempt_fresh (cfg : RateLimitConfig) (s : RateLimitStore)
    (id : String) (now : Nat) (h : s id = none) :
    recordAttempt cfg s id now =
      (setEntry s id (some ⟨1, now, none⟩), ⟨true, 0⟩) := by
  simp [recordAttempt, isLocked, h]

/-- Behaviour of `recordAttempt` on an unlocked in-window entry that stays at
or below the maximum: the count is incremented and the attempt is allowed. -/
theorem recordAttempt_increment (cfg : RateLimitConfig) (s : RateLimitStore)
    (id : String) (now a f : Nat) (h : s id = some ⟨a, f, none⟩)
    (hw : now - f ≤ cfg.windowMs) (hm : a + 1 ≤ cfg.maxAttempts) :
    recordAttempt cfg s id now =
      (setEntry s id (some ⟨a + 1, f, none⟩), ⟨true, 0⟩) := by
  simp [recordAttempt, isLocked, h, Nat.not_lt.mpr hw, Nat.not_lt.mpr hm]

/-- Behaviour of `recordAttempt` on an unlocked in-window entry whose
incremented count exceeds the maximum: the lockout is installed and the
attempt is rejected with the full lockout duration. -/
theorem recordAttempt_trigger (cfg : RateLimitConfig) (s : RateLimitStore)
    (id : String) (now a f : Nat) (h : s id = some ⟨a, f, none⟩)
    (hw : now - f ≤ cfg.windowMs) (hm : cfg.maxAttempts < a + 1) :
    recordAttempt cfg s id now =
      (setEntry s id (some ⟨a + 1, f, some (now + cfg.lockoutMs)⟩),
       ⟨false, cfg.lockoutMs⟩) := by
  simp [recordAttempt, isLocked, h, Nat.not_lt.mpr hw, hm]

/-- Every `recordAttempt` outcome is either `{allowed := true, remaining := 0}`
or has `allowed = false`. -/
theorem recordAttempt_cases (cfg : RateLimitConfig) (s : RateLimitStore)
    (id : String) (now : Nat) :
    (recordAttempt cfg s id now).2 = ⟨true, 0⟩ ∨
    (recordAttempt cfg s id now).2.allowed = false := by
  rcases hE : s id with _ | e
  · simp [recordAttempt, isLocked, hE]
  · rcases hL : e.lockedUntil with _ | lu
    · by_cases hw : cfg.windowMs < now - e.firstAttemptTime
      · simp [recordAttempt, isLocked, hE, hL, hw]
      · by_cases hm : cfg.maxAttempts < e.attempts + 1 <;>
          simp [recordAttempt, isLocked, hE, hL, hw, hm]
    · by_cases hn : now < lu
      · simp [recordAttempt, isLocked, hE, hL, hn]
      · by_cases hw : cfg.windowMs < now - e.firstAttemptTime
        · simp [recordAttempt, isLocked, hE, hL, hn, hw]
        · by_cases hm : cfg.maxAttempts < e.attempts + 1 <;>
            simp [recordAttempt, isLocked, hE, hL, hn, hw, hm, setEntry]

/-- C3: while an identifier is locked (`lockedUntil` set and strictly in the
future), `recordAttempt` returns `allowed = false` with the remaining lockout
time and leaves the whole store — in particular the stored attempt count —
unchanged. -/
theorem recordAttempt_locked_noop (cfg : RateLimitConfig) (s : RateLimitStore)
    (id : String) (now : Nat) (e : RateLimitEntry) (lu : Nat)
    (hE : s id = some e) (hL : e.lockedUntil = some lu) (hn : now < lu) :
    recordAttempt cfg s id now = (s, ⟨false, lu - now⟩) := by
  simp [recordAttempt, isLocked, getLockoutTimeRemaining, hE, hL, hn]

/-- Witness for `recordAttempt_locked_noop`: an identifier locked until 100,
probed at 50. -/
theorem recordAttempt_locked_noop_witness :
    recordAttempt DEFAULT_CONFIG
        (setEntry emptyStore "a@b.com" (some ⟨5, 0, some 100⟩)) "a@b.com" 50 =
      (setEntry emptyStore "a@b.com" (some ⟨5, 0, some 100⟩), ⟨false, 50⟩) :=
  recordAttempt_locked_noop DEFAULT_CONFIG
    (setEntry emptyStore "a@b.com" (some ⟨5, 0, some 100⟩)) "a@b.com" 50
    ⟨5, 0, some 100⟩ 100 (setEntry_same _ _ _) rfl (by decide)

/-- C10: whenever `recordAttempt` allows an attempt, its `remaining` field is
exactly 0 (so a strictly positive `remaining` comes only with
`allowed = false`). -/
theorem recordAttempt_allowed_remaining_zero (cfg : RateLimitConfig)
    (s : RateLimitStore) (id : String) (now : Nat)
    (h : (recordAttempt cfg s id now).2.allowed = true) :
    (recordAttempt cfg s id now).2.remaining = 0 := by
  rcases recordAttempt_cases cfg s id now with hc | hc
  · rw [hc]
  · rw [hc] at h
    cases h

/-- Witness for `recordAttempt_allowed_remaining_zero`: the very first attempt
for an identifier is allowed, with `remaining = 0`. -/
theorem recordAttempt_allowed_remaining_zero_witness :
    (recordAttempt DEFAULT_CONFIG emptyStore "a@b.com" 0).2.allowed = true ∧
    (recordAttempt DEFAULT_CONFIG emptyStore "a@b.com" 0).2.remaining = 0 :=
  ⟨by decide,
   recordAttempt_allowed_remaining_zero DEFAULT_CONFIG emptyStore "a@b.com" 0
     (by decide)⟩

/-- C2: starting from no record, five `recordAttempt` calls inside the
15-minute window are all allowed, and the sixth is rejected with the full
30-minute lockout (1 800 000 ms), the entry now locked until `t6` + 30 min. -/
theorem sixth_attempt_locks_out (s : RateLimitStore) (id : String)
    (t1 t2 t3 t4 t5 t6 : Nat) (h0 : s id = none)
    (h12 : t1 ≤ t2) (h23 : t2 ≤ t3) (h34 : t3 ≤ t4) (h45 : t4 ≤ t5)
    (h56 : t5 ≤ t6) (hw : t6 - t1 ≤ DEFAULT_CONFIG.windowMs) :
    (runAttempts DEFAULT_CONFIG s id [t1, t2, t3, t4, t5, t6]).2 =
      [⟨true, 0⟩, ⟨true, 0⟩, ⟨true, 0⟩, ⟨true, 0⟩, ⟨true, 0⟩,
       ⟨false, 1800000⟩] ∧
    (runAttempts DEFAULT_CONFIG s id [t1, t2, t3, t4, t5, t6]).1 id =
      some ⟨6, t1, some (t6 + 1800000)⟩ := by
  have hw' : t6 - t1 ≤ 900000 := hw
  have e1 := recordAttempt_fresh DEFAULT_CONFIG s id t1 h0
  have e2 := recordAttempt_increment DEFAULT_CONFIG
    (setEntry s id (some ⟨1, t1, none⟩)) id t2 1 t1
    (setEntry_same _ _ _) (by show t2 - t1 ≤ 900000; omega) (by decide)
  have e3 := recordAttempt_increment DEFAULT_CONFIG
    (setEntry (setEntry s id (some ⟨1, t1, none⟩)) id (some ⟨2, t1, none⟩))
    id t3 2 t1
    (setEntry_same _ _ _) (by show t3 - t1 ≤ 900000; omega) (by decide)
  have e4 := recordAttempt_increment DEFAULT_CONFIG
    (setEntry (setEntry (setEntry s id (some ⟨1, t1, none⟩)) id
      (some ⟨2, t1, none⟩)) id (some ⟨3, t1, none⟩))
    id t4 3 t1
    (setEntry_same _ _ _) (by show t4 - t1 ≤ 900000; omega) (by decide)
  have e5 := recordAttempt_increment DEFAULT_CONFIG
    (setEntry (setEntry (setEntry (setEntry s id (some ⟨1, t1, none⟩)) id
      (some ⟨2, t1, none⟩)) id (some ⟨3, t1, none⟩)) id (some ⟨4, t1, none⟩))
    id t5 4 t1
    (setEntry_same _ _ _) (by show t5 - t1 ≤ 900000; omega) (by decide)
  have e6 := recordAttempt_trigger DEFAULT_CONFIG
    (setEntry (setEntry (setEntry (setEntry (setEntry s id
      (some ⟨1, t1, none⟩)) id (some ⟨2, t1, none⟩)) id (some ⟨3, t1, none⟩))
      id (some ⟨4, t1, none⟩)) id (some ⟨5, t1, none⟩))
    id t6 5 t1
    (setEntry_same _ _ _) (by show t6 - t1 ≤ 900000; omega) (by decide)
  constructor
  · simp [runAttempts, e1, e2, e3, e4, e5, e6]
    rfl
  · simp [runAttempts, e1, e2, e3, e4, e5, e6]
    rw [setEntry_same]
    rfl

/-- Witness for `sixth_attempt_locks_out` at identifier `"a@b.com"` and times
0…5 ms. -/
theorem sixth_attempt_locks_out_witness :
    (runAttempts DEFAULT_CONFIG emptyStore "a@b.com" [0, 1, 2, 3, 4, 5]).2 =
      [⟨true, 0⟩, ⟨true, 0⟩, ⟨true, 0⟩, ⟨true, 0⟩, ⟨true, 0⟩,
       ⟨false, 1800000⟩] ∧
    (runAttempts DEFAULT_CONFIG emptyStore "a@b.com" [0, 1, 2, 3, 4, 5]).1
        "a@b.com" =
      some ⟨6, 0, some 1800005⟩ :=
  sixth_attempt_locks_out emptyStore "a@b.com" 0 1 2 3 4 5 rfl
    (by decide) (by decide) (by decide) (by decide) (by decide) (by decide)

/-! ## Credential validator theorems -/

/-- C4: `validatePassword p` is valid exactly when `p` has length ≥ 8 and
contains an uppercase letter, a lowercase letter and a digit; when invalid,
the message is that of the first failing rule in the fixed order length,
uppercase, lowercase, digit. -/
theorem validatePassword_spec (p : String) :
    ((validatePassword p).valid = true ↔
      (8 ≤ p.length ∧ hasUppercase p = true ∧ hasLowercase p = true ∧
        hasDigit p = true)) ∧
    (p.length < 8 →
      (validatePassword p).message =
        some "Password must be at least 8 characters") ∧
    (8 ≤ p.length → hasUppercase p = false →
      (validatePassword p).message =
        some "Password must contain at least one uppercase letter") ∧
    (8 ≤ p.length → hasUppercase p = true → hasLowercase p = false →
      (validatePassword p).message =
        some "Password must contain at least one lowercase letter") ∧
    (8 ≤ p.length → hasUppercase p = true → hasLowercase p = true →
        hasDigit p = false →
      (validatePassword p).message =
        some "Password must contain at least one number") := by
  cases h2 : hasUppercase p <;> cases h3 : hasLowercase p <;>
    cases h4 : hasDigit p <;> by_cases h1 : p.length < 8 <;>
      (simp [validatePassword, h1, h2, h3, h4]; try omega)

/-- Witness for `validatePassword_spec`: `"abc12345"` has length and digit
but fails at the uppercase rule. -/
theorem validatePassword_spec_witness :
    (validatePassword "abc12345").valid = false ∧
    (validatePassword "abc12345").message =
      some "Password must contain at least one uppercase letter" :=
  ⟨by decide, (validatePassword_spec "abc12345").2.2.1 (by decide) (by decide)⟩

/-! ## Login pre-validation theorems -/

/-- C5: `loginWithEmail` raises invalid-input, invalid-email-format and
rate-limited errors before the provider's credential exchange: in each of the
three cases the result is the corresponding error, identical for every
provider outcome `provider`, and the provider-invoked flag is `false`. -/
theorem loginWithEmail_prevalidation (cfg : RateLimitConfig)
    (limiter : RateLimitStore) (now : Nat) (email password : String)
    (provider : Except AuthError LoginSuccess) :
    (email = "" ∨ password = "" →
      loginWithEmail cfg limiter now email password provider =
        (limiter, false,
         .error ⟨.INVALID_CREDENTIALS, "Email and password are required"⟩)) ∧
    (email ≠ "" → password ≠ "" → validateEmail email = false →
      loginWithEmail cfg limiter now email password provider =
        (limiter, false,
         .error ⟨.INVALID_EMAIL, "Please enter a valid email address"⟩)) ∧
    (email ≠ "" → password ≠ "" → validateEmail email = true →
        (recordAttempt cfg limiter email now).2.allowed = false →
      ∃ n, n = ((recordAttempt cfg limiter email now).2.remaining + 999) / 1000 ∧
        loginWithEmail cfg limiter now email password provider =
          ((recordAttempt cfg limiter email now).1, false,
           .error ⟨.RATE_LIMIT_EXCEEDED,
             s!"Too many login attempts. Try again in {n} seconds."⟩)) := by
  refine ⟨?_, ?_, ?_⟩
  · rintro (h | h) <;> simp [loginWithEmail, h]
  · intro he hp hv
    simp [loginWithEmail, he, hp, hv]
  · intro he hp hv hr
    exact ⟨_, rfl, by simp [loginWithEmail, he, hp, hv, hr]⟩

/-- Witness for `loginWithEmail_prevalidation`: empty email, and a malformed
email, each short-circuit with the provider untouched. -/
theorem loginWithEmail_prevalidation_witness :
    loginWithEmail DEFAULT_CONFIG emptyStore 0 "" "Secret123"
        (.ok ⟨⟨"u1", "a@b.com"⟩, "tok-a", "tok-r"⟩) =
      (emptyStore, false,
       .error ⟨.INVALID_CREDENTIALS, "Email and password are required"⟩) ∧
    loginWithEmail DEFAULT_CONFIG emptyStore 0 "not-an-email" "Secret123"
        (.ok ⟨⟨"u1", "a@b.com"⟩, "tok-a", "tok-r"⟩) =
      (emptyStore, false,
       .error ⟨.INVALID_EMAIL, "Please enter a valid email address"⟩) :=
  ⟨(loginWithEmail_prevalidation DEFAULT_CONFIG emptyStore 0 "" "Secret123"
      (.ok ⟨⟨"u1", "a@b.com"⟩, "tok-a", "tok-r"⟩)).1 (Or.inl rfl),
   (loginWithEmail_prevalidation DEFAULT_CONFIG emptyStore 0 "not-an-email"
      "Secret123" (.ok ⟨⟨"u1", "a@b.com"⟩, "tok-a", "tok-r"⟩)).2.1
     (by decide) (by decide) (by decide)⟩

/-! ## Auth orchestrator theorems -/

/-- C6: whenever an orchestrator operation (login, signUp, logout,
resetPassword) ends in failure, the shared error state is set to that failure's
error and the previous `user`/`session` values are left unchanged. -/
theorem handlers_failure_frame (st : AuthState) (now : Nat) (e : AuthError) :
    ((login st now (.error e)).user = st.user ∧
     (login st now (.error e)).session = st.session ∧
     (login st now (.error e)).error = some e) ∧
    ((signUp st (.error e)).user = st.user ∧
     (signUp st (.error e)).session = st.session ∧
     (signUp st (.error e)).error = some e) ∧
    ((logoutHandler st (.error e)).user = st.user ∧
     (logoutHandler st (.error e)).session = st.session ∧
     (logoutHandler st (.error e)).error = some e) ∧
    ((resetPassword st (.error e)).user = st.user ∧
     (resetPassword st (.error e)).session = st.session ∧
     (resetPassword st (.error e)).error = some e) := by
  simp [login, signUp, logoutHandler, resetPassword]

/-- C1 counterexample: after a successful login, a `logout` whose provider
sign-out errors does NOT leave `user`/`session` null — the logged-in state
survives, refuting the claim that local state is cleared unconditionally. -/
theorem logout_provider_error_counterexample :
    ¬ ((logoutHandler
          (login initialAuthState 0
            (.ok ⟨⟨"user-1", "a@b.com"⟩, "tok-a", "tok-r"⟩))
          (.error ⟨.NETWORK_ERROR,
            "Network error. Please check your connection."⟩)).user = none ∧
       (logoutHandler
          (login initialAuthState 0
            (.ok ⟨⟨"user-1", "a@b.com"⟩, "tok-a", "tok-r"⟩))
          (.error ⟨.NETWORK_ERROR,
            "Network error. Please check your connection."⟩)).session =
         none) := by
  decide

/-- C1 amended: after a successful login, `logout` leaves `user`/`session`
both null exactly when the provider sign-out succeeds; if the provider
sign-out errors, both keep their logged-in values and the error state is set. -/
theorem login_then_logout_spec (st : AuthState) (now : Nat) (r : LoginSuccess)
    (e : AuthError) :
    ((logoutHandler (login st now (.ok r)) (.ok ())).user = none ∧
     (logoutHandler (login st now (.ok r)) (.ok ())).session = none) ∧
    ((logoutHandler (login st now (.ok r)) (.error e)).user = some r.user ∧
     (logoutHandler (login st now (.ok r)) (.error e)).session =
       some ⟨r.user, r.accessToken, r.refreshToken,
         some (now + 60 * 60 * 1000)⟩ ∧
     (logoutHandler (login st now (.ok r)) (.error e)).error = some e) := by
  simp [login, logoutHandler]

/-! ## Onboarding theorems -/

/-- Frame property: `completeOnboarding` for one user id leaves every other
user's row unchanged. -/
theorem completeOnboarding_frame (db : UsersTable) (uid' : String)
    (d : OnboardingData) (now : String) (uid : String) (h : uid' ≠ uid) :
    completeOnboarding db uid' d now uid = db uid := by
  unfold completeOnboarding getUserProfile setRow
  cases db uid' <;> simp [Ne.symm h]

/-- Completion evidence: a table reached from `db` by a history of
`completeOnboarding` operations shows `u` completed only if `db` already did
or the history contains a `completeOnboarding` for `u`. -/
theorem applyOps_completed_source (ops : List OnbOp) :
    ∀ (db : UsersTable) (u : String),
      hasCompletedOnboarding (applyOps db ops) u = true →
      hasCompletedOnboarding db u = true ∨
        ∃ d now, OnbOp.complete u d now ∈ ops := by
  induction ops with
  | nil => exact fun db u h => Or.inl h
  | cons op ops ih =>
    intro db u h
    obtain ⟨uid, d, now⟩ := op
    rcases ih (applyOp db (.complete uid d now)) u h with h' | ⟨d', now', hm⟩
    · by_cases he : uid = u
      · subst he
        exact Or.inr ⟨d, now, List.mem_cons_self _ _⟩
      · refine Or.inl ?_
        unfold hasCompletedOnboarding at h' ⊢
        rw [show applyOp db (.complete uid d now) u = db u from
          completeOnboarding_frame db uid d now u he] at h'
        exact h'
    · exact Or.inr ⟨d', now', List.mem_cons_of_mem _ hm⟩

/-- C8: `hasCompletedOnboarding u` is false on a table with no row for `u`
(in particular the empty table); over any history of `completeOnboarding`
operations starting from the empty table it is true only if the history holds
a `completeOnboarding` for that same id; and it is true right after a
successful `completeOnboarding` for `u`. -/
theorem hasCompletedOnboarding_spec (u : String) (ops : List OnbOp)
    (db : UsersTable) (d : OnboardingData) (now : String) :
    (∀ db' : UsersTable, db' u = none → hasCompletedOnboarding db' u = false) ∧
    (hasCompletedOnboarding (applyOps emptyUsers ops) u = true →
      ∃ d' now', OnbOp.complete u d' now' ∈ ops) ∧
    (hasCompletedOnboarding (completeOnboarding db u d now) u = true) := by
  refine ⟨?_, ?_, ?_⟩
  · intro db' h
    unfold hasCompletedOnboarding
    rw [h]
  · intro h
    rcases applyOps_completed_source ops emptyUsers u h with h' | h'
    · exact absurd h' (by simp [hasCompletedOnboarding, emptyUsers])
    · exact h'
  · unfold hasCompletedOnboarding completeOnboarding getUserProfile setRow
    cases db u <;> simp

/-- Witness for `hasCompletedOnboarding_spec`: a one-element history
completing onboarding for `"u1"`. -/
theorem hasCompletedOnboarding_spec_witness :
    hasCompletedOnboarding
        (applyOps emptyUsers
          [.complete "u1" ⟨"Dana", "bio", "USC", "BSCS", "pic.png", "custom",
            none⟩ "2024-01-01"]) "u1" = true ∧
    ∃ d' now',
      OnbOp.complete "u1" d' now' ∈
        [OnbOp.complete "u1" ⟨"Dana", "bio", "USC", "BSCS", "pic.png",
          "custom", none⟩ "2024-01-01"] :=
  ⟨by decide,
   (hasCompletedOnboarding_spec "u1"
      [.complete "u1" ⟨"Dana", "bio", "USC", "BSCS", "pic.png", "custom",
        none⟩ "2024-01-01"]
      emptyUsers
      ⟨"Dana", "bio", "USC", "BSCS", "pic.png", "custom", none⟩
      "2024-01-01").2.1 (by decide)⟩

/-- C7: after `completeOnboarding u f`, `getUserProfile u` returns a row whose
profile fields equal, field for field, the fields passed in (`displayName ↦
display_name`, `bio ↦ bio`, `school ↦ school`, `program ↦ program`,
`profilePicture ↦ avatar_url`) with `onboarding_completed = true`. -/
theorem completeOnboarding_roundtrip (db : UsersTable) (uid : String)
    (d : OnboardingData) (now : String) :
    ∃ row, getUserProfile (completeOnboarding db uid d now) uid = some row ∧
      row.display_name = d.displayName ∧ row.bio = d.bio ∧
      row.school = d.school ∧ row.program = d.program ∧
      row.avatar_url = d.profilePicture ∧
      row.onboarding_completed = true := by
  unfold getUserProfile completeOnboarding getUserProfile setRow
  cases db uid <;> simp

/-! ## Listings route theorem -/

/-- C9: in `POST /api/listings`, when the item row insert succeeds but the
`item_images` insert fails, the just-inserted item row is deleted again before
the 500 response: the store ends exactly as it began. -/
theorem postListings_rollback (db : ListingsDb) (item : ItemRow)
    (urls : List String) (h : ∀ r ∈ db.items, r.id ≠ item.id) :
    (postListingsInsertPhase db item urls false true).1 = db ∧
    (postListingsInsertPhase db item urls false true).2 = 500 := by
  obtain ⟨items, imgs⟩ := db
  have h1 : items.filter (fun r => decide (r.id ≠ item.id)) = items :=
    List.filter_eq_self.mpr (fun r hr => by simpa using h r hr)
  have h2 : [item].filter (fun r => decide (r.id ≠ item.id)) = [] := by
    simp
  simp [postListingsInsertPhase, List.filter_append, h1, h2]
  exact fun a ha => h a ha

/-- Witness for `postListings_rollback`: a store holding an unrelated item row
with id 2; inserting item id 1 and failing the image insert restores it. -/
theorem postListings_rollback_witness :
    (postListingsInsertPhase
        ⟨[⟨2, "rice cooker", "used once", "350", "good", "available", "u2", 4,
            "USC"⟩], []⟩
        ⟨1, "calc book", "2nd ed", "120", "good", "available", "u1", 1, "USC"⟩
        ["https://cdn/img1.png"] false true).1 =
      ⟨[⟨2, "rice cooker", "used once", "350", "good", "available", "u2", 4,
          "USC"⟩], []⟩ ∧
    (postListingsInsertPhase
        ⟨[⟨2, "rice cooker", "used once", "350", "good", "available", "u2", 4,
            "USC"⟩], []⟩
        ⟨1, "calc book", "2nd ed", "120", "good", "available", "u1", 1, "USC"⟩
        ["https://cdn/img1.png"] false true).2 = 500 :=
  postListings_rollback
    ⟨[⟨2, "rice cooker", "used once", "350", "good", "available", "u2", 4,
        "USC"⟩], []⟩
    ⟨1, "calc book", "2nd ed", "120", "good", "available", "u1", 1, "USC"⟩
    ["https://cdn/img1.png"] (by decide)

end Camply
